import Mathlib

/-!
Shallow embedding of the live-assistant audio pipeline implemented in
src/hooks/useLiveAssistant.ts (with the ConnectionState enumeration from
src/types.ts).  Every definition below is a direct translation of the
corresponding source construct:

* The mutable React refs (inputAudioContextRef, outputAudioContextRef,
  mediaStreamRef, inputGainRef, nextStartTimeRef, audioSourcesRef,
  sessionPromiseRef, currentSessionRef) and the two pieces of React state
  (connectionState, isMuted) become fields of a single record, HookState.
  Refs are live mutable cells, so handlers read their current value at the
  moment they run; React state values read inside a callback are the value
  from the render in which the callback was created, which for the onclose
  callback means the value at the time connect() was invoked (field
  capturedAtConnect below).
* Each browser/SDK callback (onaudioprocess, onmessage, onopen, onclose, the
  session promise continuation) and each user action (connect, disconnect,
  toggleMute) becomes a state-transition function, following the
  single-threaded event-loop discipline: one callback invocation is one
  atomic step.
* Calls into external APIs that can throw are modelled in the Except monad;
  a try/catch whose handler only logs is the function caught below.
  Times (AudioContext.currentTime, AudioBuffer.duration) are rationals.
-/

/-- ConnectionState from src/types.ts. -/
inductive ConnState where
  | DISCONNECTED
  | CONNECTING
  | CONNECTED
  | ERROR
deriving Repr, DecidableEq

/-- One capture pipeline superseded by a later connect: its input
AudioContext (which nothing ever closes once the refs are overwritten, so
its scriptProcessor keeps firing while ctxAlive) and whether its
scriptProcessor had an onaudioprocess handler assigned.  The handler reads
the live refs (inputGainRef, sessionPromiseRef), so its gate is evaluated
against the current state, not the state of its own generation. -/
structure Pipeline where
  ctxAlive : Bool
  handlerInstalled : Bool
deriving Repr, DecidableEq

/-- The mutable state held by the hook: React state plus all refs.
inputCtx, outputCtx, mediaStream, sessionPromise, currentSession record
whether the corresponding ref currently holds an object (non-null).
inputGain is the gain value of the node held by inputGainRef, none while the
ref is null.  audioSources holds the identifiers of the
AudioBufferSourceNode objects in audioSourcesRef, nextSourceId the next
fresh identifier.  handlerInstalled records whether the current
scriptProcessor has an onaudioprocess handler assigned.  capturedAtConnect
is the connectionState value closed over by the session callbacks, i.e. the
value at the render that created the executing connect callback.
oldPipelines lists the capture pipelines of earlier connects whose refs
were overwritten by a re-entrant connect: the source never closes those
contexts (disconnect closes only inputAudioContextRef.current), so the old
scriptProcessors keep firing while their context lives. -/
structure HookState where
  connectionState : ConnState
  error : Option String
  isMuted : Bool
  inputCtx : Bool
  outputCtx : Bool
  mediaStream : Bool
  inputGain : Option ℚ
  nextStartTime : ℚ
  audioSources : List Nat
  nextSourceId : Nat
  sessionPromise : Bool
  currentSession : Bool
  handlerInstalled : Bool
  capturedAtConnect : ConnState
  oldPipelines : List Pipeline
deriving Repr, DecidableEq

/-- The initial hook state: all refs null, state DISCONNECTED, not muted. -/
def initState : HookState :=
  { connectionState := ConnState.DISCONNECTED
    error := none
    isMuted := false
    inputCtx := false
    outputCtx := false
    mediaStream := false
    inputGain := none
    nextStartTime := 0
    audioSources := []
    nextSourceId := 0
    sessionPromise := false
    currentSession := false
    handlerInstalled := false
    capturedAtConnect := ConnState.DISCONNECTED
    oldPipelines := [] }

/-- Message set when process.env.API_KEY is absent. -/
def keyMissingMsg : String := "API Key not found in environment variables."

/-- Message for NotAllowedError / PermissionDeniedError. -/
def micDeniedMsg : String :=
  "Microphone access denied. Please allow microphone permissions in your browser."

/-- Message for NotFoundError / DevicesNotFoundError. -/
def micMissingMsg : String := "No microphone found. Please connect a microphone."

/-- Message for NotReadableError / TrackStartError. -/
def micBusyMsg : String :=
  "Microphone is busy or not readable. Try closing other apps using the mic."

/-- Fallback message when the thrown error has no message of its own. -/
def genericConnectMsg : String := "Failed to connect to microphone or API."

/-- The error-name to user-facing-message mapping of connect's catch block:
errorMessage starts as err.message or the generic fallback (the source uses
the or-else operator, so an empty message also falls back), then the three
name groups override it. -/
def mapConnectError (name msg : String) : String :=
  match name with
  | "NotAllowedError" | "PermissionDeniedError" => micDeniedMsg
  | "NotFoundError" | "DevicesNotFoundError" => micMissingMsg
  | "NotReadableError" | "TrackStartError" => micBusyMsg
  | _ => if msg = "" then genericConnectMsg else msg

/-- toggleMute from the source: if inputGainRef.current is null nothing at
all happens; otherwise isMuted flips and the gain value is set to 0 or 1. -/
def toggleMute (s : HookState) : HookState :=
  match s.inputGain with
  | none => s
  | some _ =>
    let newMuteState := !s.isMuted
    { s with isMuted := newMuteState
             inputGain := some (if newMuteState then (0 : ℚ) else 1) }

/-- A try/catch whose handler only logs and swallows the error, as used
around session.close, source.stop, context.close and sendRealtimeInput. -/
def caught (x : Except String Unit) : Except String Unit :=
  match x with
  | Except.ok _ => Except.ok ()
  | Except.error _ => Except.ok ()

/-- Which external cleanup calls throw in a given run of disconnect.
MediaStreamTrack.stop never throws per the platform API, so it carries no
flag. -/
structure FailProfile where
  closeSessionFails : Bool
  stopFailIds : List Nat
  closeInputCtxFails : Bool
  closeOutputCtxFails : Bool

/-- The session.close() call. -/
def closeSessionCall (fp : FailProfile) : Except String Unit :=
  if fp.closeSessionFails then Except.error keyMissingMsg else Except.ok ()

/-- The source.stop() call on one scheduled buffer source. -/
def stopSourceCall (fp : FailProfile) (id : Nat) : Except String Unit :=
  if id ∈ fp.stopFailIds then Except.error keyMissingMsg else Except.ok ()

/-- The AudioContext.close() call. -/
def closeCtxCall (fails : Bool) : Except String Unit :=
  if fails then Except.error keyMissingMsg else Except.ok ()

/-- audioSourcesRef.current.forEach with each source.stop() in try/catch. -/
def stopAllSources (fp : FailProfile) : List Nat → Except String Unit
  | [] => Except.ok ()
  | id :: rest =>
    match caught (stopSourceCall fp id) with
    | Except.ok _ => stopAllSources fp rest
    | Except.error e => Except.error e

/-- disconnect from the source, step by step: close the session handle if
present (caught), null the session promise, stop every scheduled source
(each caught) and clear the set, stop the microphone tracks and null the
stream, close and null each audio context (caught), then set
DISCONNECTED and reset isMuted.  Note that inputGainRef is NOT cleared. -/
def disconnect (fp : FailProfile) (s : HookState) : Except String HookState := do
  let s1 ←
    if s.currentSession then do
      let _ ← caught (closeSessionCall fp)
      pure { s with currentSession := false }
    else pure s
  let s2 := { s1 with sessionPromise := false }
  let _ ← stopAllSources fp s2.audioSources
  let s3 := { s2 with audioSources := ([] : List Nat) }
  let s4 := if s3.mediaStream then { s3 with mediaStream := false } else s3
  let s5 ←
    if s4.inputCtx then do
      let _ ← caught (closeCtxCall fp.closeInputCtxFails)
      pure { s4 with inputCtx := false }
    else pure s4
  let s6 ←
    if s5.outputCtx then do
      let _ ← caught (closeCtxCall fp.closeOutputCtxFails)
      pure { s5 with outputCtx := false }
    else pure s5
  pure { s6 with connectionState := ConnState.DISCONNECTED, isMuted := false }

/-- The net state change disconnect always performs (proved below):
session refs nulled, sources cleared, stream and contexts released,
DISCONNECTED, unmuted.  error, inputGain, nextStartTime, nextSourceId,
handlerInstalled and capturedAtConnect are untouched, as in the source. -/
def disconnectState (s : HookState) : HookState :=
  { s with currentSession := false
           sessionPromise := false
           audioSources := []
           mediaStream := false
           inputCtx := false
           outputCtx := false
           connectionState := ConnState.DISCONNECTED
           isMuted := false }

/-- connect up to (and including) storing sessionPromiseRef.  hasKey models
process.env.API_KEY being present; mic models the awaited getUserMedia call,
whose failure carries the platform error (name, message).  Returns the new
state together with the list of setConnectionState calls made, in order.
On the success path a fresh gain node (value 1) and a fresh scriptProcessor
(no handler yet) are created, the stream and both contexts are stored, and
the session promise is stored; the session callbacks close over the
connectionState value of the creating render (capturedAtConnect).  The
source only overwrites the refs: if an input context was already live (a
re-entrant connect), that old pipeline is not torn down — its context is
never closed and its scriptProcessor keeps its handler and keeps firing —
so it is pushed onto oldPipelines.  On the failure path the catch block
sets the mapped message, sets ERROR, and then invokes disconnect, which
resets to DISCONNECTED (getUserMedia rejects before any context or
processor of the new attempt is created, so no new pipeline exists). -/
def connectAttempt (hasKey : Bool) (mic : Except (String × String) Unit)
    (s : HookState) : HookState × List ConnState :=
  if !hasKey then
    ({ s with error := some keyMissingMsg }, [])
  else
    let s1 := { s with connectionState := ConnState.CONNECTING, error := none }
    match mic with
    | Except.error e =>
      let s2 := { s1 with error := some (mapConnectError e.1 e.2)
                          connectionState := ConnState.ERROR }
      (disconnectState s2,
        [ConnState.CONNECTING, ConnState.ERROR, ConnState.DISCONNECTED])
    | Except.ok _ =>
      ({ s1 with mediaStream := true
                 inputCtx := true
                 outputCtx := true
                 inputGain := some 1
                 handlerInstalled := false
                 sessionPromise := true
                 capturedAtConnect := s.connectionState
                 oldPipelines :=
                   if s.inputCtx then
                     ⟨true, s.handlerInstalled⟩ :: s.oldPipelines
                   else s.oldPipelines },
        [ConnState.CONNECTING])

/-- One frame handed to (or at least offered to) the transport: the
connectionState at the moment the capture handler ran, and whether the
sendRealtimeInput call succeeded. -/
structure Sent where
  stateAtSend : ConnState
  delivered : Bool
deriving Repr, DecidableEq

/-- The session.sendRealtimeInput call inside the promise continuation. -/
def sendCall (sendFails : Bool) : Except String Unit :=
  if sendFails then Except.error genericConnectMsg else Except.ok ()

/-- The onaudioprocess handler body: return immediately when the gain node
exists with value 0 (muted); otherwise encode the frame and, if
sessionPromiseRef is non-null, hand it to the session with the send call
wrapped in try/catch (failures are logged and the frame dropped).  The send
continuation is modelled inside the same atomic step. -/
def onAudioProcess (sendFails : Bool) (s : HookState) :
    Except String (HookState × List Sent) := do
  if s.inputGain = some (0 : ℚ) then
    pure (s, [])
  else if s.sessionPromise then do
    let _ ← caught (sendCall sendFails)
    pure (s, [⟨s.connectionState, !sendFails⟩])
  else
    pure (s, [])

/-- The (always reached, proved below) result of onAudioProcess. -/
def onAudioProcessRun (sendFails : Bool) (s : HookState) :
    HookState × List Sent :=
  if s.inputGain = some (0 : ℚ) then (s, [])
  else if s.sessionPromise then (s, [⟨s.connectionState, !sendFails⟩])
  else (s, [])

/-- Scheduling one decoded chunk, from onmessage: the cursor is first pulled
up to the clock, the source starts at that value, then the cursor advances
by the buffer duration; the new source joins the active set.  Returns the
new state and the start time passed to sourceNode.start. -/
def scheduleChunk (clock d : ℚ) (s : HookState) : HookState × ℚ :=
  let start := max s.nextStartTime clock
  ({ s with nextStartTime := start + d
            audioSources := s.nextSourceId :: s.audioSources
            nextSourceId := s.nextSourceId + 1 },
    start)

/-- Observable output of one onmessage invocation: the start time passed to
sourceNode.start, if a chunk was scheduled, and the sources stopped by the
interruption branch. -/
structure MsgOut where
  started : Option ℚ
  stopped : List Nat
deriving Repr, DecidableEq

/-- The onmessage handler: if the message carries audio (modelled by its
decoded duration) and outputAudioContextRef is non-null, schedule it at the
given clock (ctx.currentTime); then, independently, if the interruption
flag is set, stop every active source, clear the set and zero the cursor. -/
def onMessage (audio : Option ℚ) (interrupted : Bool) (clock : ℚ)
    (s : HookState) : HookState × MsgOut :=
  let p : HookState × Option ℚ :=
    match audio with
    | some d =>
      if s.outputCtx then
        let r := scheduleChunk clock d s
        (r.1, some r.2)
      else (s, none)
    | none => (s, none)
  if interrupted then
    ({ p.1 with audioSources := [], nextStartTime := 0 },
      ⟨p.2, p.1.audioSources⟩)
  else (p.1, ⟨p.2, []⟩)

/-- Whether the superseded pipeline at index i can fire an onaudioprocess
event: it exists, its context was never closed, and its scriptProcessor has
a handler assigned. -/
def oldFires (l : List Pipeline) (i : Nat) : Bool :=
  match l.get? i with
  | some p => p.ctxAlive && p.handlerInstalled
  | none => false

/-- Assign the onaudioprocess handler of the superseded pipeline at index
i, as a stale onopen callback does to the scriptProcessor of its own
(since superseded) connect invocation. -/
def installOld : List Pipeline → Nat → List Pipeline
  | [], _ => []
  | p :: rest, 0 => { p with handlerInstalled := true } :: rest
  | p :: rest, Nat.succ i => p :: installOld rest i

/-- The events that can hit the hook, one per callback or user action.
connectOk is a connect whose getUserMedia succeeds, connectFail one whose
getUserMedia rejects with the given platform error, connectNoKey a connect
with no API key.  openAck is the onopen callback of the most recent
connect (sets CONNECTED and assigns the onaudioprocess handler of the
current scriptProcessor); openAckStale is the onopen callback of a
superseded connect (it too sets CONNECTED, and assigns the handler of its
own, superseded, scriptProcessor).  captureFrame is one onaudioprocess
invocation of the current pipeline (it only fires while the input context
is alive and a handler is assigned); captureFrameOld is one onaudioprocess
invocation of the superseded pipeline at the given index — the handler
body reads the live refs either way.  sessionResolved is the continuation
sessionPromise.then storing currentSessionRef.  closeEv is the session
onclose callback, whose guard reads the connectionState captured at
connect time.  endedEv is one source's onended removal hook. -/
inductive Ev where
  | connectOk
  | connectFail (name msg : String)
  | connectNoKey
  | openAck
  | openAckStale (i : Nat)
  | captureFrame (sendFails : Bool)
  | captureFrameOld (i : Nat) (sendFails : Bool)
  | message (audio : Option ℚ) (interrupted : Bool) (clock : ℚ)
  | sessionResolved
  | disconnectEv
  | closeEv
  | toggleMuteEv
  | endedEv (id : Nat)

/-- One event-loop turn. -/
def step (s : HookState) : Ev → HookState × List Sent
  | Ev.connectOk => ((connectAttempt true (Except.ok ()) s).1, [])
  | Ev.connectFail name msg =>
      ((connectAttempt true (Except.error (name, msg)) s).1, [])
  | Ev.connectNoKey => ((connectAttempt false (Except.ok ()) s).1, [])
  | Ev.openAck =>
      ({ s with connectionState := ConnState.CONNECTED, handlerInstalled := true }, [])
  | Ev.openAckStale i =>
      ({ s with connectionState := ConnState.CONNECTED,
                oldPipelines := installOld s.oldPipelines i }, [])
  | Ev.captureFrame f =>
      if s.inputCtx && s.handlerInstalled then onAudioProcessRun f s else (s, [])
  | Ev.captureFrameOld i f =>
      if oldFires s.oldPipelines i then onAudioProcessRun f s else (s, [])
  | Ev.message a i clk => ((onMessage a i clk s).1, [])
  | Ev.sessionResolved => ({ s with currentSession := true }, [])
  | Ev.disconnectEv => (disconnectState s, [])
  | Ev.closeEv =>
      (if s.capturedAtConnect = ConnState.CONNECTED then disconnectState s else s, [])
  | Ev.toggleMuteEv => (toggleMute s, [])
  | Ev.endedEv id => ({ s with audioSources := s.audioSources.erase id }, [])

/-- Run a list of events, collecting every frame handed to the transport. -/
def runEvents (s : HookState) : List Ev → HookState × List Sent
  | [] => (s, [])
  | e :: rest =>
    ((runEvents (step s e).1 rest).1,
      (step s e).2 ++ (runEvents (step s e).1 rest).2)

/-- Sample state for the playback witnesses: output context alive, cursor
at 2 seconds. -/
def wsPlayback : HookState :=
  { initState with outputCtx := true, nextStartTime := 2 }

/-- Sample state for the interruption witness: two active sources. -/
def wsInterrupt : HookState :=
  { initState with outputCtx := true, audioSources := [7, 8],
                   nextSourceId := 9, nextStartTime := 4 }

/-- Sample state for the mute witness: muted, everything else live. -/
def wsMuted : HookState :=
  { initState with inputGain := some 0, sessionPromise := true,
                   inputCtx := true, handlerInstalled := true,
                   connectionState := ConnState.CONNECTED }

/-- Sample state for the toggle witness: unmuted with gain 1. -/
def wsUnmuted : HookState := { initState with inputGain := some 1 }

/-- Some capture pipeline — the current one or a surviving superseded one —
is able to fire with a handler assigned. -/
def anyLiveInstalled (s : HookState) : Bool :=
  (s.inputCtx && s.handlerInstalled)
    || s.oldPipelines.any fun p => p.ctxAlive && p.handlerInstalled

/-- No capture pipeline is live: the state from which the UI invokes
connect (initially, or after a full teardown). -/
def noLivePipeline (s : HookState) : Bool :=
  !s.inputCtx && s.oldPipelines.all fun p => !p.ctxAlive

/-- The per-event side condition of the restricted traces: connect is only
invoked with no live capture pipeline. -/
def connectGuard (e : Ev) (s : HookState) : Bool :=
  match e with
  | Ev.connectOk => noLivePipeline s
  | _ => true

/-- A trace in which every connect is issued from a pipeline-free state. -/
def connectsGuarded (s : HookState) : List Ev → Bool
  | [] => true
  | e :: rest => connectGuard e s && connectsGuarded (step s e).1 rest

/-- The send invariant: whenever any pipeline able to fire has an assigned
capture handler and the session promise ref is non-null, the connection
state is CONNECTED. -/
def sendInv (s : HookState) : Prop :=
  s.sessionPromise = true → anyLiveInstalled s = true →
    s.connectionState = ConnState.CONNECTED

/-! Helper lemmas. -/

theorem caught_eq (x : Except String Unit) : caught x = Except.ok () := by
  cases x <;> rfl

theorem stopAllSources_ok (fp : FailProfile) (l : List Nat) :
    stopAllSources fp l = Except.ok () := by
  induction l with
  | nil => rfl
  | cons id rest ih => simp [stopAllSources, caught_eq, ih]

theorem onAudioProcessRun_fst (f : Bool) (s : HookState) :
    (onAudioProcessRun f s).1 = s := by
  unfold onAudioProcessRun
  split
  · rfl
  · split <;> rfl

theorem onMessage_connectionState (a : Option ℚ) (i : Bool) (clk : ℚ)
    (s : HookState) : (onMessage a i clk s).1.connectionState = s.connectionState := by
  unfold onMessage
  cases a <;> simp [scheduleChunk] <;> split <;> simp_all <;> split <;> simp_all

theorem onMessage_flags (a : Option ℚ) (i : Bool) (clk : ℚ) (s : HookState) :
    (onMessage a i clk s).1.handlerInstalled = s.handlerInstalled
    ∧ (onMessage a i clk s).1.sessionPromise = s.sessionPromise
    ∧ (onMessage a i clk s).1.inputCtx = s.inputCtx
    ∧ (onMessage a i clk s).1.outputCtx = s.outputCtx := by
  unfold onMessage
  cases a <;> simp [scheduleChunk] <;> split <;> simp_all <;> split <;> simp_all

theorem onMessage_old (a : Option ℚ) (i : Bool) (clk : ℚ) (s : HookState) :
    (onMessage a i clk s).1.oldPipelines = s.oldPipelines := by
  unfold onMessage
  cases a <;> simp [scheduleChunk] <;> split <;> simp_all <;> split <;> simp_all

theorem oldFires_any (l : List Pipeline) (i : Nat) (h : oldFires l i = true) :
    (l.any fun p => p.ctxAlive && p.handlerInstalled) = true := by
  induction l generalizing i with
  | nil => simp [oldFires] at h
  | cons p rest ih =>
    cases i with
    | zero =>
      simp [oldFires] at h
      simp [List.any_cons, h]
    | succ j =>
      have := ih j (by simpa [oldFires] using h)
      simp [List.any_cons, this]

theorem sendInv_of_fields (s t : HookState)
    (h1 : t.sessionPromise = s.sessionPromise)
    (h2 : t.inputCtx = s.inputCtx)
    (h3 : t.handlerInstalled = s.handlerInstalled)
    (h4 : t.oldPipelines = s.oldPipelines)
    (h5 : t.connectionState = s.connectionState)
    (hs : sendInv s) : sendInv t := by
  intro ha hb
  rw [h5]
  refine hs (h1 ▸ ha) ?_
  simpa [anyLiveInstalled, h2, h3, h4] using hb

/-! Claim theorems. -/

/-- Claim C1: on each inbound audio chunk the playback handler starts the
buffer at max(cursor, clock), advances the cursor to that start plus the
buffer duration (so the cursor satisfies the recurrence
cursor = max(previous cursor, clock) + d), the cursor is non-decreasing for
non-negative durations, and a back-to-back follow-up chunk (one arriving
before the clock passes the cursor) starts exactly at the previous chunk's
start plus its duration: no gap and no overlap. -/
theorem claim_c1 (s : HookState) (clock d : ℚ) (hctx : s.outputCtx = true)
    (hd : 0 ≤ d) :
    (onMessage (some d) false clock s).1.nextStartTime
        = max s.nextStartTime clock + d
    ∧ (onMessage (some d) false clock s).2.started
        = some (max s.nextStartTime clock)
    ∧ s.nextStartTime ≤ (onMessage (some d) false clock s).1.nextStartTime
    ∧ ∀ clock2 d2 : ℚ, clock2 ≤ max s.nextStartTime clock + d →
        (scheduleChunk clock2 d2 (onMessage (some d) false clock s).1).2
          = max s.nextStartTime clock + d := by
  refine ⟨?_, ?_, ?_, ?_⟩
  · simp [onMessage, scheduleChunk, hctx]
  · simp [onMessage, scheduleChunk, hctx]
  · simp only [onMessage, scheduleChunk, hctx]
    exact le_trans (le_max_left _ _) (le_add_of_nonneg_right hd)
  · intro clock2 d2 h
    simp only [onMessage, scheduleChunk, hctx]
    simpa using max_eq_left h

/-- Witness for claim C1 at cursor 2, clock 1, duration 3. -/
theorem claim_c1_witness :
    wsPlayback.outputCtx = true
    ∧ (0 : ℚ) ≤ 3
    ∧ ((onMessage (some 3) false 1 wsPlayback).1.nextStartTime
          = max wsPlayback.nextStartTime 1 + 3
        ∧ (onMessage (some 3) false 1 wsPlayback).2.started
            = some (max wsPlayback.nextStartTime 1)
        ∧ wsPlayback.nextStartTime
            ≤ (onMessage (some 3) false 1 wsPlayback).1.nextStartTime
        ∧ ∀ clock2 d2 : ℚ, clock2 ≤ max wsPlayback.nextStartTime 1 + 3 →
            (scheduleChunk clock2 d2 (onMessage (some 3) false 1 wsPlayback).1).2
              = max wsPlayback.nextStartTime 1 + 3) :=
  ⟨rfl, by norm_num, claim_c1 wsPlayback 1 3 rfl (by norm_num)⟩

/-- Claim C2: after any inbound message with the interruption flag set the
active source set is empty, every previously active unit was stopped, the
cursor is reset to 0, and the next scheduled chunk starts exactly at the
(non-negative) clock time, never at a past cursor value. -/
theorem claim_c2 (audio : Option ℚ) (clock : ℚ) (s : HookState)
    (clock2 d2 : ℚ) (hc : 0 ≤ clock2) :
    (onMessage audio true clock s).1.audioSources = []
    ∧ (onMessage audio true clock s).1.nextStartTime = 0
    ∧ (∀ u ∈ s.audioSources, u ∈ (onMessage audio true clock s).2.stopped)
    ∧ (scheduleChunk clock2 d2 (onMessage audio true clock s).1).2 = clock2 := by
  have h2 : (onMessage audio true clock s).1.nextStartTime = 0 := rfl
  refine ⟨rfl, h2, ?_, ?_⟩
  · intro u hu
    cases audio with
    | none => simpa [onMessage] using hu
    | some d =>
      by_cases hoc : s.outputCtx = true
      · simp [onMessage, scheduleChunk, hoc]
        exact Or.inr hu
      · simp [onMessage, hoc]
        exact hu
  · show max (onMessage audio true clock s).1.nextStartTime clock2 = clock2
    rw [h2]
    exact max_eq_right hc

/-- Witness for claim C2 with an audio-carrying interrupting message. -/
theorem claim_c2_witness :
    (0 : ℚ) ≤ 3
    ∧ ((onMessage (some 1) true 5 wsInterrupt).1.audioSources = []
        ∧ (onMessage (some 1) true 5 wsInterrupt).1.nextStartTime = 0
        ∧ (∀ u ∈ wsInterrupt.audioSources,
            u ∈ (onMessage (some 1) true 5 wsInterrupt).2.stopped)
        ∧ (scheduleChunk 3 2 (onMessage (some 1) true 5 wsInterrupt).1).2 = 3) :=
  ⟨by norm_num, claim_c2 (some 1) 5 wsInterrupt 3 2 (by norm_num)⟩

/-- Claim C3: while the gain node is at 0 (muted) an arbitrary run of
capture frames hands zero encoded chunks to the transport, and toggling
mute twice from a consistent state (gain 0 when muted, 1 when not)
restores the state exactly, gain multiplier and MuteState included. -/
theorem claim_c3 (s : HookState) (fs : List Bool) (t : HookState)
    (hm : s.inputGain = some (0 : ℚ))
    (ht : t.inputGain = some (if t.isMuted then (0 : ℚ) else 1)) :
    (runEvents s (fs.map Ev.captureFrame)).2 = []
    ∧ toggleMute (toggleMute t) = t := by
  constructor
  · induction fs with
    | nil => rfl
    | cons f rest ih =>
      have hstep : step s (Ev.captureFrame f) = (s, []) := by
        cases hg : (s.inputCtx && s.handlerInstalled) <;>
          simp [step, hg, onAudioProcessRun, hm]
      simp only [List.map_cons, runEvents, hstep]
      simpa using ih
  · obtain ⟨cs, err, m, ic, oc, ms, ig, nst, srcs, nid, sp, cur, hi, cap, olds⟩ := t
    simp only at ht
    rw [ht]
    cases m <;> simp [toggleMute]

/-- Witness for claim C3: two muted capture frames send nothing, and a
double toggle on the unmuted state is the identity. -/
theorem claim_c3_witness :
    wsMuted.inputGain = some (0 : ℚ)
    ∧ wsUnmuted.inputGain = some (if wsUnmuted.isMuted then (0 : ℚ) else 1)
    ∧ ((runEvents wsMuted ([false, true].map Ev.captureFrame)).2 = []
        ∧ toggleMute (toggleMute wsUnmuted) = wsUnmuted) :=
  ⟨rfl, by decide,
    claim_c3 wsMuted [false, true] wsUnmuted rfl (by decide)⟩

theorem disconnect_eq (fp : FailProfile) (s : HookState) :
    disconnect fp s = Except.ok (disconnectState s) := by
  unfold disconnect
  cases hcs : s.currentSession <;>
  cases hms : s.mediaStream <;>
  cases hic : s.inputCtx <;>
  cases hoc : s.outputCtx <;>
    simp [caught_eq, stopAllSources_ok, hcs, hms, hic, hoc, disconnectState,
      Bind.bind, Except.bind, Pure.pure, Except.pure]

/-- Claim C5: teardown never raises, from any starting state and however
the individual cleanup calls fail: it always returns successfully with the
session handle, session promise, active sources, media stream and both
audio contexts cleared, state DISCONNECTED and mute reset; and a second
invocation (with any failure behaviour) succeeds and leaves the very same
state. -/
theorem claim_c5 (fp fp2 : FailProfile) (s : HookState) :
    disconnect fp s = Except.ok (disconnectState s)
    ∧ (disconnectState s).connectionState = ConnState.DISCONNECTED
    ∧ (disconnectState s).currentSession = false
    ∧ (disconnectState s).sessionPromise = false
    ∧ (disconnectState s).mediaStream = false
    ∧ (disconnectState s).inputCtx = false
    ∧ (disconnectState s).outputCtx = false
    ∧ (disconnectState s).audioSources = []
    ∧ (disconnectState s).isMuted = false
    ∧ disconnect fp2 (disconnectState s) = Except.ok (disconnectState s) :=
  ⟨disconnect_eq fp s, rfl, rfl, rfl, rfl, rfl, rfl, rfl, rfl,
    disconnect_eq fp2 (disconnectState s)⟩

theorem toggleMute_flags (s : HookState) :
    (toggleMute s).connectionState = s.connectionState
    ∧ (toggleMute s).handlerInstalled = s.handlerInstalled
    ∧ (toggleMute s).sessionPromise = s.sessionPromise
    ∧ (toggleMute s).inputCtx = s.inputCtx
    ∧ (toggleMute s).oldPipelines = s.oldPipelines := by
  cases h : s.inputGain <;> simp [toggleMute, h]

theorem sendInv_step (s : HookState) (e : Ev) (hs : sendInv s)
    (hguard : connectGuard e s = true) : sendInv (step s e).1 := by
  cases e with
  | connectOk =>
    intro h1 h2
    exfalso
    have hng : noLivePipeline s = true := hguard
    simp [noLivePipeline, List.all_eq_true] at hng
    obtain ⟨hic, hall⟩ := hng
    simp [step, connectAttempt, anyLiveInstalled, hic, List.any_eq_true] at h2
    obtain ⟨p, hp, hpa, _⟩ := h2
    have := hall p hp
    simp [this] at hpa
  | connectFail name msg =>
    intro h1 h2
    simp [step, connectAttempt, disconnectState] at h1
  | connectNoKey => exact sendInv_of_fields s _ rfl rfl rfl rfl rfl hs
  | openAck => intro h1 h2; rfl
  | openAckStale i => intro h1 h2; rfl
  | captureFrame f =>
    cases hg : (s.inputCtx && s.handlerInstalled) <;>
      simp [step, hg, onAudioProcessRun_fst, hs]
  | captureFrameOld i f =>
    cases hg : oldFires s.oldPipelines i <;>
      simp [step, hg, onAudioProcessRun_fst, hs]
  | message a i clk =>
    exact sendInv_of_fields s _ (onMessage_flags a i clk s).2.1
      (onMessage_flags a i clk s).2.2.1 (onMessage_flags a i clk s).1
      (onMessage_old a i clk s) (onMessage_connectionState a i clk s) hs
  | sessionResolved => exact sendInv_of_fields s _ rfl rfl rfl rfl rfl hs
  | disconnectEv =>
    intro h1 h2
    simp [step, disconnectState] at h1
  | closeEv =>
    by_cases hcap : s.capturedAtConnect = ConnState.CONNECTED
    · intro h1 h2
      simp [step, hcap, disconnectState] at h1
    · simpa [step, hcap] using hs
  | toggleMuteEv =>
    exact sendInv_of_fields s _ (toggleMute_flags s).2.2.1
      (toggleMute_flags s).2.2.2.1 (toggleMute_flags s).2.1
      (toggleMute_flags s).2.2.2.2 (toggleMute_flags s).1 hs
  | endedEv id => exact sendInv_of_fields s _ rfl rfl rfl rfl rfl hs

theorem step_sent (s : HookState) (e : Ev) (hs : sendInv s) :
    ∀ r ∈ (step s e).2, r.stateAtSend = ConnState.CONNECTED := by
  intro r hr
  cases e with
  | captureFrame f =>
    cases hg : (s.inputCtx && s.handlerInstalled) with
    | false => simp [step, hg] at hr
    | true =>
      have hand : s.inputCtx = true ∧ s.handlerInstalled = true := by
        simpa using hg
      obtain ⟨hic, hhi⟩ := hand
      by_cases hmg : s.inputGain = some (0 : ℚ)
      · simp [step, hg, onAudioProcessRun, hmg] at hr
      · cases hsp : s.sessionPromise with
        | false => simp [step, hg, onAudioProcessRun, hmg, hsp] at hr
        | true =>
          simp [step, hg, onAudioProcessRun, hmg, hsp] at hr
          rw [hr]
          exact hs hsp (by simp [anyLiveInstalled, hic, hhi])
  | captureFrameOld i f =>
    cases hg : oldFires s.oldPipelines i with
    | false => simp [step, hg] at hr
    | true =>
      by_cases hmg : s.inputGain = some (0 : ℚ)
      · simp [step, hg, onAudioProcessRun, hmg] at hr
      · cases hsp : s.sessionPromise with
        | false => simp [step, hg, onAudioProcessRun, hmg, hsp] at hr
        | true =>
          simp [step, hg, onAudioProcessRun, hmg, hsp] at hr
          rw [hr]
          exact hs hsp
            (by simp [anyLiveInstalled, oldFires_any s.oldPipelines i hg])
  | connectOk => simp [step] at hr
  | connectFail name msg => simp [step] at hr
  | connectNoKey => simp [step] at hr
  | openAck => simp [step] at hr
  | openAckStale i => simp [step] at hr
  | message a i clk => simp [step] at hr
  | sessionResolved => simp [step] at hr
  | disconnectEv => simp [step] at hr
  | closeEv => simp [step] at hr
  | toggleMuteEv => simp [step] at hr
  | endedEv id => simp [step] at hr

theorem runEvents_sent (evs : List Ev) (s : HookState) (hs : sendInv s)
    (hg : connectsGuarded s evs = true) :
    ∀ r ∈ (runEvents s evs).2, r.stateAtSend = ConnState.CONNECTED := by
  induction evs generalizing s with
  | nil => intro r hr; simp [runEvents] at hr
  | cons e rest ih =>
    have hg2 : connectGuard e s = true ∧ connectsGuarded (step s e).1 rest = true := by
      simpa [connectsGuarded] using hg
    intro r hr
    simp only [runEvents, List.mem_append] at hr
    rcases hr with h | h
    · exact step_sent s e hs r h
    · exact ih (step s e).1 (sendInv_step s e hs hg2.1) hg2.2 r h

/-- Claim C4 counterexample: the claimed invariant — no capture frame is
handed to the transport while ConnectionState is not CONNECTED — is false
of the program.  A re-entrant connect() while a session is live only
overwrites the refs: the previous scriptProcessor, with its handler
installed, keeps firing on its never-closed input context, the fresh gain
node reads 1 (not muted) and sessionPromiseRef is non-null, so its frame
is handed to the transport while the new connect is still CONNECTING.
Concretely: connect, open (CONNECTED, handler installed), connect again
(CONNECTING), old pipeline fires — exactly one frame is sent, at state
CONNECTING. -/
theorem claim_c4_counterexample :
    (runEvents initState
        [Ev.connectOk, Ev.openAck, Ev.connectOk, Ev.captureFrameOld 0 false]).2
      = [⟨ConnState.CONNECTING, true⟩]
    ∧ (runEvents initState [Ev.connectOk, Ev.openAck, Ev.connectOk]).1.connectionState
      = ConnState.CONNECTING :=
  ⟨by decide, by decide⟩

/-- Claim C4 as amended: a successful connect passes DISCONNECTED,
CONNECTING, CONNECTED in that order; the current capture handler only
becomes installed through the open acknowledgment; immediately after
teardown the session promise is null and a capture frame sends nothing;
and along every event trace in which connect is only invoked with no live
capture pipeline — the torn-down states from which the UI invokes it —
every frame handed to the transport is handed over while the connection
state is CONNECTED.  (Without that restriction the invariant fails, as the
counterexample shows.) -/
theorem claim_c4_amended :
    (initState.connectionState = ConnState.DISCONNECTED
      ∧ (step initState Ev.connectOk).1.connectionState = ConnState.CONNECTING
      ∧ (step (step initState Ev.connectOk).1 Ev.openAck).1.connectionState
          = ConnState.CONNECTED)
    ∧ (∀ s e, (step s e).1.handlerInstalled = true →
        s.handlerInstalled = true ∨ e = Ev.openAck)
    ∧ (∀ evs, connectsGuarded initState evs = true →
        ∀ r ∈ (runEvents initState evs).2, r.stateAtSend = ConnState.CONNECTED)
    ∧ (∀ (s : HookState) (f : Bool),
        (step (disconnectState s) (Ev.captureFrame f)).2 = []
        ∧ (disconnectState s).sessionPromise = false) := by
  refine ⟨⟨rfl, rfl, rfl⟩, ?_, ?_, ?_⟩
  · intro s e h
    cases e with
    | connectOk => simp [step, connectAttempt] at h
    | connectFail name msg =>
      left; simpa [step, connectAttempt, disconnectState] using h
    | connectNoKey => left; simpa [step, connectAttempt] using h
    | openAck => right; rfl
    | openAckStale i => left; simpa [step] using h
    | captureFrame f =>
      left
      cases hg : (s.inputCtx && s.handlerInstalled) <;>
        simpa [step, hg, onAudioProcessRun_fst] using h
    | captureFrameOld i f =>
      left
      cases hg : oldFires s.oldPipelines i <;>
        simpa [step, hg, onAudioProcessRun_fst] using h
    | message a i clk =>
      left
      rw [← (onMessage_flags a i clk s).1]
      exact h
    | sessionResolved => left; simpa [step] using h
    | disconnectEv => left; simpa [step, disconnectState] using h
    | closeEv =>
      left
      by_cases hcap : s.capturedAtConnect = ConnState.CONNECTED <;>
        simpa [step, hcap, disconnectState] using h
    | toggleMuteEv =>
      left
      rw [← (toggleMute_flags s).2.1]
      exact h
    | endedEv id => left; simpa [step] using h
  · intro evs hg r hr
    exact runEvents_sent evs initState
      (by intro h1 h2; exact absurd h1 (by decide)) hg r hr
  · intro s f
    exact ⟨by simp [step, disconnectState], rfl⟩

/-- Witness for claim C4 as amended: the handler-installation clause
applied right after a successful connect, and the guarded-trace clause
applied to the concrete guarded trace connect, open, one capture frame. -/
theorem claim_c4_witness :
    ((step initState Ev.connectOk).1.handlerInstalled = true ∨ Ev.openAck = Ev.openAck)
    ∧ connectsGuarded initState [Ev.connectOk, Ev.openAck, Ev.captureFrame false] = true
    ∧ (⟨ConnState.CONNECTED, true⟩ : Sent).stateAtSend = ConnState.CONNECTED :=
  ⟨claim_c4_amended.2.1 (step initState Ev.connectOk).1 Ev.openAck (by decide),
    by decide,
    claim_c4_amended.2.2.1 [Ev.connectOk, Ev.openAck, Ev.captureFrame false]
      (by decide) ⟨ConnState.CONNECTED, true⟩ (by decide)⟩

/-- Claim C6 counterexample: a connect with no API key is a setup failure
that the claim says ends in ConnectionState ERROR, but the source handles
it by an early return that only sets the error message: from the initial
state the connection state stays DISCONNECTED, never becomes ERROR, and no
setConnectionState call is made at all. -/
theorem claim_c6_counterexample :
    (connectAttempt false (Except.ok ()) initState).1.error = some keyMissingMsg
    ∧ (connectAttempt false (Except.ok ()) initState).1.connectionState
        = ConnState.DISCONNECTED
    ∧ (connectAttempt false (Except.ok ()) initState).1.connectionState
        ≠ ConnState.ERROR
    ∧ (connectAttempt false (Except.ok ()) initState).2 = [] :=
  ⟨rfl, rfl, by decide, rfl⟩

/-- Claim C6 as amended: setup failures thrown inside connect's try block
(microphone acquisition failures in particular) are caught, set the mapped
user-facing message, and set ConnectionState to ERROR, after which the
catch block's teardown call resets it to DISCONNECTED; the permission,
no-device and busy-device error names map to their three distinct
messages, the denied one beginning with "Microphone access denied";
a missing API key, by contrast, only sets the error message and leaves
ConnectionState unchanged. -/
theorem claim_c6_amended (s : HookState) (name msg : String) :
    ConnState.ERROR ∈ (connectAttempt true (Except.error (name, msg)) s).2
    ∧ (connectAttempt true (Except.error (name, msg)) s).1.error
        = some (mapConnectError name msg)
    ∧ (connectAttempt true (Except.error (name, msg)) s).1.connectionState
        = ConnState.DISCONNECTED
    ∧ mapConnectError ("NotAllowedError") msg = micDeniedMsg
    ∧ mapConnectError ("PermissionDeniedError") msg = micDeniedMsg
    ∧ mapConnectError ("NotFoundError") msg = micMissingMsg
    ∧ mapConnectError ("DevicesNotFoundError") msg = micMissingMsg
    ∧ mapConnectError ("NotReadableError") msg = micBusyMsg
    ∧ mapConnectError ("TrackStartError") msg = micBusyMsg
    ∧ (connectAttempt false (Except.ok ()) s).1.connectionState
        = s.connectionState := by
  refine ⟨?_, rfl, rfl, rfl, rfl, rfl, rfl, rfl, rfl, rfl⟩
  simp [connectAttempt]

/-- Claim C7, what the code does at the failing input: the user connects
from DISCONNECTED, so the onclose callback closes over connectionState =
DISCONNECTED; the session opens (state CONNECTED); the remote transport
then reports close.  The guard inside onclose compares the stale captured
value, not the current state, so no teardown runs: the connection state
stays CONNECTED and the session promise ref stays populated, contradicting
the claimed CONNECTED to DISCONNECTED transition. -/
theorem claim_c7_codebug :
    (runEvents initState [Ev.connectOk, Ev.openAck, Ev.closeEv]).1.connectionState
        = ConnState.CONNECTED
    ∧ (runEvents initState [Ev.connectOk, Ev.openAck, Ev.closeEv]).1.capturedAtConnect
        = ConnState.DISCONNECTED
    ∧ (runEvents initState [Ev.connectOk, Ev.openAck, Ev.closeEv]).1.sessionPromise
        = true :=
  ⟨rfl, rfl, rfl⟩

/-- Claim C8, what the code does at the failing input: disconnect runs
while the connect is still CONNECTING (session promise stored, handle not
yet resolved); teardown nulls both refs; the session promise continuation
then resolves and, having no stale-state check, unconditionally stores the
session handle back into currentSessionRef: the handle is re-populated
after teardown, contradicting the claim. -/
theorem claim_c8_codebug :
    (runEvents initState [Ev.connectOk, Ev.disconnectEv]).1.currentSession = false
    ∧ (runEvents initState [Ev.connectOk, Ev.disconnectEv]).1.sessionPromise = false
    ∧ (runEvents initState
        [Ev.connectOk, Ev.disconnectEv, Ev.sessionResolved]).1.currentSession = true
    ∧ (runEvents initState
        [Ev.connectOk, Ev.disconnectEv, Ev.sessionResolved]).1.connectionState
          = ConnState.DISCONNECTED :=
  ⟨rfl, rfl, rfl, rfl⟩

/-- Claim C9: the capture handler body never lets an exception escape (the
send call is inside try/catch, so the handler always returns normally),
never changes any hook state, and when the send fails the frame is simply
dropped: every record it emits is marked undelivered. -/
theorem claim_c9 (f : Bool) (s : HookState) :
    onAudioProcess f s = Except.ok (onAudioProcessRun f s)
    ∧ (onAudioProcessRun f s).1 = s
    ∧ (f = true → ∀ r ∈ (onAudioProcessRun f s).2, r.delivered = false) := by
  refine ⟨?_, onAudioProcessRun_fst f s, ?_⟩
  · by_cases hmg : s.inputGain = some (0 : ℚ)
    · simp [onAudioProcess, onAudioProcessRun, hmg, Pure.pure, Except.pure]
    · cases hsp : s.sessionPromise <;>
        simp [onAudioProcess, onAudioProcessRun, hmg, hsp, caught_eq,
          Bind.bind, Except.bind, Pure.pure, Except.pure]
  · rintro rfl r hr
    by_cases hmg : s.inputGain = some (0 : ℚ)
    · simp [onAudioProcessRun, hmg] at hr
    · cases hsp : s.sessionPromise with
      | false => simp [onAudioProcessRun, hmg, hsp] at hr
      | true =>
        simp [onAudioProcessRun, hmg, hsp] at hr
        simp [hr]

/-- Witness for claim C9: a failing send in the state right after a
successful connect is dropped without an exception. -/
theorem claim_c9_witness :
    (true : Bool) = true
    ∧ ∀ r ∈ (onAudioProcessRun true (step initState Ev.connectOk).1).2,
        r.delivered = false :=
  ⟨rfl, (claim_c9 true (step initState Ev.connectOk).1).2.2 rfl⟩

/-- Claim C10 counterexample: teardown does not clear inputGainRef, so
after connect, open, disconnect the capture graph is released (input
context and stream gone) yet the gain ref still holds the old node; a
toggleMute in that state is not a no-op: it flips MuteState to true and
writes gain 0 on the stale node, so mute can be engaged with no active
capture graph. -/
theorem claim_c10_counterexample :
    (runEvents initState [Ev.connectOk, Ev.openAck, Ev.disconnectEv]).1.inputCtx = false
    ∧ (runEvents initState [Ev.connectOk, Ev.openAck, Ev.disconnectEv]).1.mediaStream
        = false
    ∧ (runEvents initState [Ev.connectOk, Ev.openAck, Ev.disconnectEv]).1.isMuted
        = false
    ∧ (runEvents initState [Ev.connectOk, Ev.openAck, Ev.disconnectEv]).1.inputGain
        = some 1
    ∧ (toggleMute
        (runEvents initState [Ev.connectOk, Ev.openAck, Ev.disconnectEv]).1).isMuted
          = true
    ∧ (toggleMute
        (runEvents initState [Ev.connectOk, Ev.openAck, Ev.disconnectEv]).1).inputGain
          = some 0 :=
  ⟨rfl, rfl, rfl, rfl, by decide, by decide⟩

/-- Claim C10 as amended: while inputGainRef holds no node — which is the
case before the first successful connect, the initial state included —
toggleMute is a complete no-op: the state, MuteState included, is
unchanged.  (After teardown the ref still holds the old node, so the no-op
clause does not extend there.) -/
theorem claim_c10_amended (s : HookState) (h : s.inputGain = none) :
    toggleMute s = s ∧ initState.inputGain = none := by
  constructor
  · simp [toggleMute, h]
  · rfl

/-- Witness for claim C10 as amended, at the initial state. -/
theorem claim_c10_witness :
    initState.inputGain = none
    ∧ (toggleMute initState = initState ∧ initState.inputGain = none) :=
  ⟨rfl, claim_c10_amended initState rfl⟩
